import Mathlib

/-!
Shallow embedding of `src/FilamentMotionSensor.cpp` (class `FilamentMotionSensor`).

Conventions of the embedding:
* C `float` values are modelled as `ℚ`; decimal literals of the source are the
  corresponding rationals (`0.10f ↦ 1/10`, `0.25f ↦ 1/4`, `0.01f ↦ 1/100`, ...).
* C `unsigned long` timestamps/durations are modelled as `Nat`; the source's
  unsigned subtraction `a - b` (mod 2^32 wraparound) is `wsub a b`.
* C `int` configuration parameters are modelled as `Int`.
* `millis()` is modelled by an explicit `now : Nat` argument to each member
  function (the source reads the clock once per call).
* The member arrays `samples[MAX_SAMPLES]` are modelled as a total map
  `Nat → Sample`; the class constant `MAX_SAMPLES` is declared in a header that
  is not part of the sources, so it is carried as the immutable field
  `maxSamples` (no member function changes it), and every array access of the
  source is mirrored with its exact C index arithmetic (`Int.tmod` is C's
  truncating `%`).
* `isJammed` is `const` in C++ but updates `mutable` members; it is modelled as
  `jamEval`, returning the result together with the updated state and the
  local variables (`hardJamTriggered`, `softJamTriggered`, `evaluationDeltaMs`)
  that the claims talk about.
-/

/-- The enum `FilamentTrackingMode` (declared in the class header):
`TRACKING_MODE_CUMULATIVE`, `TRACKING_MODE_WINDOWED`, `TRACKING_MODE_EWMA`. -/
inductive FilamentTrackingMode where
  | cumulative
  | windowed
  | ewma
deriving DecidableEq

/-- One slot of the sample ring buffer: `{timestampMs, expectedMm, actualMm}`. -/
structure Sample where
  timestampMs : Nat
  expectedMm : ℚ
  actualMm : ℚ

/-- The member state of class `FilamentMotionSensor`
(fields in the order the source uses them). -/
structure FilamentMotionSensor where
  trackingMode : FilamentTrackingMode
  windowSizeMs : Nat
  ewmaAlpha : ℚ
  initialized : Bool
  firstPulseReceived : Bool
  lastExpectedUpdateMs : Nat
  baselinePositionMm : ℚ
  expectedPositionMm : ℚ
  sensorDistanceMm : ℚ
  sampleCount : Nat
  nextSampleIndex : Nat
  maxSamples : Nat
  samples : Nat → Sample
  ewmaExpectedMm : ℚ
  ewmaActualMm : ℚ
  ewmaLastExpectedMm : ℚ
  ewmaLastActualMm : ℚ
  lastWindowDeficitMm : ℚ
  lastDeficitTimestampMs : Nat
  lastJamEvaluationMs : Nat
  hardJamAccumulatedMs : Nat
  hardJamConsecutiveChecks : Nat
  hardJamRequiredChecks : Nat
  softJamAccumulatedMs : Nat
  lastSoftJamTimeMs : Int
  softJamActive : Bool
  softJamDeficitAccumMm : ℚ
  hardJamAccumExpectedMm : ℚ
  hardJamAccumActualMm : ℚ
  lastCumulativeExpectedPositionMm : ℚ
  lastCumulativeSensorDistanceMm : ℚ
  lastSensorPulseMs : Nat

/-- C `unsigned long` subtraction `a - b` with 32-bit wraparound. -/
def wsub (a b : Nat) : Nat :=
  ((a % 2 ^ 32) + 2 ^ 32 - (b % 2 ^ 32)) % 2 ^ 32

/-- Pointwise array store `samples[j] = v`. -/
def setAt (f : Nat → Sample) (j : Nat) (v : Sample) : Nat → Sample :=
  fun k => if k = j then v else f k

/-- `FilamentMotionSensor::reset()` (source lines 13-56); `now` is `millis()`. -/
def FilamentMotionSensor.reset (s : FilamentMotionSensor) (now : Nat) :
    FilamentMotionSensor :=
  { s with
    initialized := false
    firstPulseReceived := false
    lastExpectedUpdateMs := now
    baselinePositionMm := 0
    expectedPositionMm := 0
    sensorDistanceMm := 0
    sampleCount := 0
    nextSampleIndex := 0
    samples := fun _ => ⟨0, 0, 0⟩
    ewmaExpectedMm := 0
    ewmaActualMm := 0
    ewmaLastExpectedMm := 0
    ewmaLastActualMm := 0
    lastWindowDeficitMm := 0
    lastDeficitTimestampMs := 0
    lastJamEvaluationMs := 0
    hardJamAccumulatedMs := 0
    hardJamConsecutiveChecks := 0
    hardJamRequiredChecks := 0
    softJamAccumulatedMs := 0
    lastSoftJamTimeMs := 0
    softJamActive := false
    softJamDeficitAccumMm := 0
    hardJamAccumExpectedMm := 0
    hardJamAccumActualMm := 0
    lastCumulativeExpectedPositionMm := 0
    lastCumulativeSensorDistanceMm := 0
    lastSensorPulseMs := now }

/-- The constructor `FilamentMotionSensor::FilamentMotionSensor()`
(source lines 5-11): windowed mode, 5 s window, α = 0.3, then `reset()`.
`ms` is the header constant `MAX_SAMPLES`. -/
def FilamentMotionSensor.mk0 (ms : Nat) (now : Nat) : FilamentMotionSensor :=
  FilamentMotionSensor.reset
    { trackingMode := FilamentTrackingMode.windowed
      windowSizeMs := 5000
      ewmaAlpha := 3 / 10
      initialized := false
      firstPulseReceived := false
      lastExpectedUpdateMs := 0
      baselinePositionMm := 0
      expectedPositionMm := 0
      sensorDistanceMm := 0
      sampleCount := 0
      nextSampleIndex := 0
      maxSamples := ms
      samples := fun _ => ⟨0, 0, 0⟩
      ewmaExpectedMm := 0
      ewmaActualMm := 0
      ewmaLastExpectedMm := 0
      ewmaLastActualMm := 0
      lastWindowDeficitMm := 0
      lastDeficitTimestampMs := 0
      lastJamEvaluationMs := 0
      hardJamAccumulatedMs := 0
      hardJamConsecutiveChecks := 0
      hardJamRequiredChecks := 0
      softJamAccumulatedMs := 0
      lastSoftJamTimeMs := 0
      softJamActive := false
      softJamDeficitAccumMm := 0
      hardJamAccumExpectedMm := 0
      hardJamAccumActualMm := 0
      lastCumulativeExpectedPositionMm := 0
      lastCumulativeSensorDistanceMm := 0
      lastSensorPulseMs := 0 }
    now

/-- `FilamentMotionSensor::setTrackingMode` (source lines 58-68). -/
def FilamentMotionSensor.setTrackingMode (s : FilamentMotionSensor)
    (mode : FilamentTrackingMode) (windowMs : Nat) (alpha : ℚ) :
    FilamentMotionSensor :=
  let a1 := if alpha < 1 / 100 then (1 / 100 : ℚ) else alpha
  let a2 := if a1 > 1 then (1 : ℚ) else a1
  { s with trackingMode := mode, windowSizeMs := windowMs, ewmaAlpha := a2 }

/-- The C ring index `(nextSampleIndex - sampleCount + i + MAX_SAMPLES) % MAX_SAMPLES`
(signed `int` arithmetic; `Int.tmod` is C's truncating `%`). -/
def ringIdx (next count i ms : Nat) : Nat :=
  (((next : Int) - (count : Int) + (i : Int) + (ms : Int)).tmod (ms : Int)).toNat

/-- `FilamentMotionSensor::pruneOldSamples()` (source lines 220-254). -/
def FilamentMotionSensor.pruneOldSamples (s : FilamentMotionSensor) (now : Nat) :
    FilamentMotionSensor :=
  let cutoffTime := wsub now s.windowSizeMs
  let step : Nat × (Nat → Sample) → Nat → Nat × (Nat → Sample) := fun acc i =>
    let idx := ringIdx s.nextSampleIndex s.sampleCount i s.maxSamples
    if (acc.2 idx).timestampMs ≥ cutoffTime then
      let acc2 :=
        if acc.1 ≠ i then
          let newIdx := ringIdx s.nextSampleIndex s.sampleCount acc.1 s.maxSamples
          (acc.1, setAt acc.2 newIdx (acc.2 idx))
        else acc
      (acc2.1 + 1, acc2.2)
    else acc
  let r := (List.range s.sampleCount).foldl step (0, s.samples)
  { s with
    sampleCount := r.1
    samples := r.2
    nextSampleIndex := if r.1 > 0 then r.1 else 0 }

/-- `FilamentMotionSensor::addSample` (source lines 201-218). -/
def FilamentMotionSensor.addSample (s : FilamentMotionSensor)
    (expectedDeltaMm actualDeltaMm : ℚ) (now : Nat) : FilamentMotionSensor :=
  let s1 := s.pruneOldSamples now
  let s2 := { s1 with
    samples := setAt s1.samples s1.nextSampleIndex ⟨now, expectedDeltaMm, actualDeltaMm⟩ }
  { s2 with
    nextSampleIndex := (s2.nextSampleIndex + 1) % s.maxSamples
    sampleCount := if s2.sampleCount < s.maxSamples then s2.sampleCount + 1 else s2.sampleCount }

/-- `FilamentMotionSensor::getWindowedDistances` (source lines 256-268):
returns `(expectedMm, actualMm)`. -/
def FilamentMotionSensor.getWindowedDistances (s : FilamentMotionSensor) : ℚ × ℚ :=
  (List.range s.sampleCount).foldl
    (fun acc i =>
      let idx := ringIdx s.nextSampleIndex s.sampleCount i s.maxSamples
      (acc.1 + (s.samples idx).expectedMm, acc.2 + (s.samples idx).actualMm))
    (0, 0)

/-- `FilamentMotionSensor::getExpectedDistance()` (source lines 473-498). -/
def FilamentMotionSensor.getExpectedDistance (s : FilamentMotionSensor) : ℚ :=
  if s.initialized = false then 0
  else
    match s.trackingMode with
    | FilamentTrackingMode.cumulative => s.expectedPositionMm - s.baselinePositionMm
    | FilamentTrackingMode.windowed => s.getWindowedDistances.1
    | FilamentTrackingMode.ewma => s.ewmaExpectedMm

/-- `FilamentMotionSensor::getSensorDistance()` (source lines 500-525). -/
def FilamentMotionSensor.getSensorDistance (s : FilamentMotionSensor) : ℚ :=
  if s.initialized = false then 0
  else
    match s.trackingMode with
    | FilamentTrackingMode.cumulative => s.sensorDistanceMm
    | FilamentTrackingMode.windowed => s.getWindowedDistances.2
    | FilamentTrackingMode.ewma => s.ewmaActualMm

/-- `FilamentMotionSensor::updateExpectedPosition` (source lines 70-148). -/
def FilamentMotionSensor.updateExpectedPosition (s : FilamentMotionSensor)
    (totalExtrusionMm : ℚ) (now : Nat) : FilamentMotionSensor :=
  if s.initialized = false then
    -- lines 74-92: first telemetry establishes the baseline for all modes
    { s with
      initialized := true
      lastExpectedUpdateMs := now
      baselinePositionMm := totalExtrusionMm
      expectedPositionMm := totalExtrusionMm
      sensorDistanceMm := 0
      ewmaLastExpectedMm := totalExtrusionMm
      ewmaLastActualMm := 0
      ewmaExpectedMm := 0
      ewmaActualMm := 0 }
  else
    -- lines 94-113: retraction resync
    let s1 :=
      if totalExtrusionMm < s.expectedPositionMm then
        let sA := { s with
          lastExpectedUpdateMs := now
          baselinePositionMm := totalExtrusionMm
          sensorDistanceMm := 0
          sampleCount := 0
          nextSampleIndex := 0 }
        { sA with
          ewmaLastExpectedMm := totalExtrusionMm
          ewmaLastActualMm := sA.sensorDistanceMm
          ewmaExpectedMm := 0
          ewmaActualMm := 0 }
      else s
    -- line 116 (reads the still-unmodified expectedPositionMm)
    let expectedDelta := totalExtrusionMm - s1.expectedPositionMm
    -- lines 121-126: telemetry gap detection
    let s2 :=
      if wsub now s1.lastExpectedUpdateMs > 2000 ∧ expectedDelta > 1 / 100 then
        { s1 with lastExpectedUpdateMs := now }
      else s1
    -- lines 128-144: only track expected deltas after the first pulse
    let s3 :=
      if s2.firstPulseReceived then
        if s2.trackingMode = FilamentTrackingMode.windowed ∧ expectedDelta > 1 / 100 then
          s2.addSample expectedDelta 0 now
        else if s2.trackingMode = FilamentTrackingMode.ewma ∧ expectedDelta > 1 / 100 then
          { s2 with
            ewmaExpectedMm :=
              s2.ewmaAlpha * (totalExtrusionMm - s2.ewmaLastExpectedMm) +
                (1 - s2.ewmaAlpha) * s2.ewmaExpectedMm
            ewmaLastExpectedMm := totalExtrusionMm }
        else s2
      else s2
    -- line 147
    { s3 with expectedPositionMm := totalExtrusionMm }

/-- `FilamentMotionSensor::addSensorPulse` (source lines 150-199). -/
def FilamentMotionSensor.addSensorPulse (s : FilamentMotionSensor)
    (mmPerPulse : ℚ) (now : Nat) : FilamentMotionSensor :=
  if mmPerPulse ≤ 0 ∨ s.initialized = false then s
  else
    let s1 := { s with lastSensorPulseMs := now }
    -- lines 162-177: first pulse resynchronizes the baseline
    let s2 :=
      if s1.firstPulseReceived = false then
        { s1 with
          firstPulseReceived := true
          baselinePositionMm := s1.expectedPositionMm
          sensorDistanceMm := 0
          sampleCount := 0
          nextSampleIndex := 0
          ewmaExpectedMm := 0
          ewmaActualMm := 0
          ewmaLastExpectedMm := s1.expectedPositionMm
          ewmaLastActualMm := 0 }
      else s1
    let s3 := { s2 with sensorDistanceMm := s2.sensorDistanceMm + mmPerPulse }
    -- lines 183-191: credit the most recent windowed sample
    let s4 :=
      if s3.trackingMode = FilamentTrackingMode.windowed ∧ s3.sampleCount > 0 then
        let mostRecentIndex :=
          (((s3.nextSampleIndex : Int) - 1 + (s3.maxSamples : Int)).tmod
            (s3.maxSamples : Int)).toNat
        if mostRecentIndex < s3.sampleCount then
          { s3 with
            samples := setAt s3.samples mostRecentIndex
              { s3.samples mostRecentIndex with
                actualMm := (s3.samples mostRecentIndex).actualMm + mmPerPulse } }
        else s3
      else s3
    -- lines 194-198
    if s4.trackingMode = FilamentTrackingMode.ewma then
      { s4 with ewmaActualMm := s4.ewmaAlpha * mmPerPulse + (1 - s4.ewmaAlpha) * s4.ewmaActualMm }
    else s4

/-- `FilamentMotionSensor::getDeficit()` (source lines 459-471). -/
def FilamentMotionSensor.getDeficit (s : FilamentMotionSensor) : ℚ :=
  if s.initialized = false then 0
  else
    let deficit := s.getExpectedDistance - s.getSensorDistance
    if deficit > 0 then deficit else 0

/-- `FilamentMotionSensor::isWithinGracePeriod` (source lines 532-540). -/
def FilamentMotionSensor.isWithinGracePeriod (s : FilamentMotionSensor)
    (gracePeriodMs : Nat) (now : Nat) : Bool :=
  if s.initialized = false ∨ gracePeriodMs = 0 then false
  else decide (wsub now s.lastExpectedUpdateMs < gracePeriodMs)

/-- `FilamentMotionSensor::getFlowRatio()` (source lines 542-563). -/
def FilamentMotionSensor.getFlowRatio (s : FilamentMotionSensor) : ℚ :=
  if s.initialized = false then 0
  else if s.getExpectedDistance ≤ 0 then 0
  else
    let ratio := s.getSensorDistance / s.getExpectedDistance
    let r1 := if ratio > 3 / 2 then (3 / 2 : ℚ) else ratio
    if r1 < 0 then 0 else r1

/-- The clamp of `ratioThreshold` (source lines 279-286):
non-positive values become 0.25, values above 1 become 1. -/
def clampRatioThreshold (rt : ℚ) : ℚ :=
  let r1 := if rt ≤ 0 then (1 / 4 : ℚ) else rt
  if r1 > 1 then (1 : ℚ) else r1

/-- The clamp of `softJamTimeMs` (source lines 287-290). -/
def clampSoftJamTime (st : Int) : Int :=
  if st ≤ 0 then 10000 else st

/-- The clamp of `hardJamTimeMs` (source lines 291-294). -/
def clampHardJamTime (ht : Int) : Int :=
  if ht ≤ 0 then 5000 else ht

/-- The grace-period gate of `isJammed` (source lines 298-310): true when the
call returns early because the grace period is still running. -/
def graceGate (s : FilamentMotionSensor) (gracePeriodMs now : Nat) : Prop :=
  0 < gracePeriodMs ∧ wsub now s.lastExpectedUpdateMs < gracePeriodMs

instance (s : FilamentMotionSensor) (g now : Nat) : Decidable (graceGate s g now) :=
  inferInstanceAs (Decidable (And _ _))

/-- The state written by the early grace-period return (source lines 303-307). -/
def graceResetState (s : FilamentMotionSensor) (now : Nat) : FilamentMotionSensor :=
  { s with
    hardJamAccumulatedMs := 0
    hardJamConsecutiveChecks := 0
    softJamAccumulatedMs := 0
    softJamActive := false
    lastJamEvaluationMs := now }

/-- `windowDeficit` of `isJammed` (source lines 312-318): the windowed
expected/actual difference floored at zero. -/
def windowDeficit (s : FilamentMotionSensor) : ℚ :=
  let d := s.getExpectedDistance - s.getSensorDistance
  if d < 0 then 0 else d

/-- `passingRatio` of `isJammed` (source lines 323-327). -/
def passingRatio (s : FilamentMotionSensor) : ℚ :=
  let r := if s.getExpectedDistance > 0 then s.getSensorDistance / s.getExpectedDistance else 1
  if r < 0 then 0 else r

/-- `evaluationDeltaMs` of `isJammed` (source lines 329-334): the wall-clock
credit for this evaluation, capped at `checkIntervalMs`. -/
def evalDelta (s : FilamentMotionSensor) (checkIntervalMs : Int) (now : Nat) : Nat :=
  let d := if s.lastJamEvaluationMs = 0 then checkIntervalMs.toNat
           else wsub now s.lastJamEvaluationMs
  if d > checkIntervalMs.toNat then checkIntervalMs.toNat else d

/-- `requiredHardChecks` of `isJammed` (source lines 339-343). -/
def requiredHardChecks (ht c : Int) : Nat :=
  let r := (ht + c - 1).toNat / c.toNat
  if r = 0 then 1 else r

/-- `hardCondition` of `isJammed` (source lines 349-350): windowed expected
distance at least 1 mm and passing ratio below 0.10. -/
def hardCondition (s : FilamentMotionSensor) : Prop :=
  s.getExpectedDistance ≥ 1 ∧ passingRatio s < 1 / 10

instance (s : FilamentMotionSensor) : Decidable (hardCondition s) :=
  inferInstanceAs (Decidable (And _ _))

/-- `receivedPulseRecent` of `isJammed` (source lines 355-356). -/
def receivedPulseRecent (s : FilamentMotionSensor) (checkIntervalMs : Int) (now : Nat) :
    Prop :=
  wsub now s.lastSensorPulseMs ≤ (checkIntervalMs + 500).toNat

instance (s : FilamentMotionSensor) (c : Int) (now : Nat) :
    Decidable (receivedPulseRecent s c now) :=
  Nat.decLe _ _

/-- `softCondition` of `isJammed` (source line 403): passing ratio below the
(clamped) ratio threshold and windowed deficit at least 0.25 mm. -/
def softCondition (s : FilamentMotionSensor) (rt : ℚ) : Prop :=
  passingRatio s < rt ∧ windowDeficit s ≥ 1 / 4

instance (s : FilamentMotionSensor) (rt : ℚ) : Decidable (softCondition s rt) :=
  inferInstanceAs (Decidable (And _ _))

/-- The bookkeeping writes of `isJammed` that precede the accumulator steps
(source lines 320-321, 335, 344). -/
def preEvalState (s : FilamentMotionSensor) (ht c : Int) (now : Nat) :
    FilamentMotionSensor :=
  { s with
    lastWindowDeficitMm := windowDeficit s
    lastDeficitTimestampMs := now
    lastJamEvaluationMs := now
    hardJamRequiredChecks := requiredHardChecks ht c }

/-- The hard-jam accumulation/forgiveness step (source lines 358-372); `s0` is
the state at entry (whose fields the conditions read: they are not modified
before this point), `s` the state being threaded. -/
def hardAccumStep (s0 s : FilamentMotionSensor) (delta htN : Nat) (c : Int)
    (now : Nat) : FilamentMotionSensor :=
  if hardCondition s0 then
    let a := s.hardJamAccumulatedMs + delta
    { s with hardJamAccumulatedMs := if a > htN then htN else a }
  else if 0 < s.hardJamAccumulatedMs ∧ receivedPulseRecent s0 c now then
    { s with hardJamAccumulatedMs := 0 }
  else s

/-- The hard-jam trigger with its stale-carry veto (source lines 378-394):
returns `(hardJamTriggered, state)`. -/
def hardVeto (s0 s : FilamentMotionSensor) (htN : Nat) :
    Bool × FilamentMotionSensor :=
  if s.hardJamAccumulatedMs ≥ htN then
    if s0.getExpectedDistance ≥ 1 then (true, s)
    else (false, { s with hardJamAccumulatedMs := 0, hardJamConsecutiveChecks := 0 })
  else (false, s)

/-- The soft-jam accumulation/reset step (source lines 405-420). -/
def softStep (s0 s : FilamentMotionSensor) (rt : ℚ) (stN delta : Nat) :
    FilamentMotionSensor :=
  if softCondition s0 rt then
    let sa := s.softJamAccumulatedMs + delta
    { s with
      softJamActive := true
      softJamAccumulatedMs := if sa > stN then stN else sa
      softJamDeficitAccumMm := s.softJamDeficitAccumMm + windowDeficit s0 }
  else
    { s with softJamActive := false, softJamAccumulatedMs := 0, softJamDeficitAccumMm := 0 }

/-- What one call of `isJammed` produces: the returned `Bool`, the local
trigger flags, the evaluation credit, and the updated (`mutable`) state. -/
structure JamEvalResult where
  result : Bool
  hardJamTriggered : Bool
  softJamTriggered : Bool
  evaluationDeltaMs : Nat
  state : FilamentMotionSensor

/-- The full evaluation of `isJammed` past the clamps and the grace gate
(source lines 312-426); `rt`, `st`, `ht` are the already-clamped parameters. -/
def jamEvalCore (s : FilamentMotionSensor) (rt : ℚ) (st ht c : Int) (now : Nat) :
    JamEvalResult :=
  let delta := evalDelta s c now
  let s3 := preEvalState s ht c now
  let s4 := hardAccumStep s s3 delta ht.toNat c now
  let s5 := { s4 with hardJamConsecutiveChecks := s4.hardJamAccumulatedMs / c.toNat }
  let hv := hardVeto s s5 ht.toNat
  let s7 := softStep s hv.2 rt st.toNat delta
  let s8 := { s7 with lastSoftJamTimeMs := st }
  let softT : Bool :=
    decide (s8.softJamAccumulatedMs ≥ st.toNat ∧ s8.softJamDeficitAccumMm ≥ (1 / 2 : ℚ))
  ⟨hv.1 || softT, hv.1, softT, delta, s8⟩

/-- `FilamentMotionSensor::isJammed` (source lines 270-427), with the mutation
of the `mutable` members made explicit.  `hardJamThresholdMm` is a parameter of
the source function that its body never reads. -/
def jamEval (s : FilamentMotionSensor) (ratioThreshold hardJamThresholdMm : ℚ)
    (softJamTimeMs hardJamTimeMs checkIntervalMs : Int) (gracePeriodMs now : Nat) :
    JamEvalResult :=
  if s.initialized = false ∨ checkIntervalMs ≤ 0 then
    ⟨false, false, false, 0, s⟩
  else if graceGate s gracePeriodMs now then
    ⟨false, false, false, 0, graceResetState s now⟩
  else
    jamEvalCore s (clampRatioThreshold ratioThreshold) (clampSoftJamTime softJamTimeMs)
      (clampHardJamTime hardJamTimeMs) checkIntervalMs now

/-- The `bool` the source's `isJammed` returns. -/
def FilamentMotionSensor.isJammed (s : FilamentMotionSensor)
    (ratioThreshold hardJamThresholdMm : ℚ)
    (softJamTimeMs hardJamTimeMs checkIntervalMs : Int) (gracePeriodMs now : Nat) :
    Bool :=
  (jamEval s ratioThreshold hardJamThresholdMm softJamTimeMs hardJamTimeMs
    checkIntervalMs gracePeriodMs now).result

/-! ## Helper lemmas -/

lemma wsub_self (a : Nat) : wsub a a = 0 := by
  unfold wsub
  omega

lemma wsub_eq_sub {a b : Nat} (h1 : b ≤ a) (h2 : a < 2 ^ 32) : wsub a b = a - b := by
  unfold wsub
  have hb : b < 2 ^ 32 := lt_of_le_of_lt h1 h2
  rw [Nat.mod_eq_of_lt h2, Nat.mod_eq_of_lt hb]
  omega

lemma evalDelta_le (s : FilamentMotionSensor) (c : Int) (now : Nat) :
    evalDelta s c now ≤ c.toNat := by
  unfold evalDelta
  dsimp only
  generalize wsub now s.lastJamEvaluationMs = w
  split <;> split <;> omega

lemma getWindowedDistances_of_empty (s : FilamentMotionSensor) (h : s.sampleCount = 0) :
    s.getWindowedDistances = (0, 0) := by
  unfold FilamentMotionSensor.getWindowedDistances
  rw [h]
  rfl

/-! ## Claims -/

/-- C8: for every tracker state, `getFlowRatio()` returns a value in
`[0, 1.5]`, and it returns exactly 0 whenever the tracker is uninitialized or
the current expected distance is ≤ 0. -/
theorem claim_C8_flowRatio_bounds (s : FilamentMotionSensor) :
    0 ≤ s.getFlowRatio ∧ s.getFlowRatio ≤ 3 / 2 ∧
    (s.initialized = false → s.getFlowRatio = 0) ∧
    (s.getExpectedDistance ≤ 0 → s.getFlowRatio = 0) := by
  unfold FilamentMotionSensor.getFlowRatio
  by_cases h1 : s.initialized = false
  · rw [if_pos h1]
    refine ⟨le_refl 0, by norm_num, fun _ => rfl, fun _ => rfl⟩
  · rw [if_neg h1]
    by_cases h2 : s.getExpectedDistance ≤ 0
    · rw [if_pos h2]
      refine ⟨le_refl 0, by norm_num, fun h => absurd h h1, fun _ => rfl⟩
    · rw [if_neg h2]
      dsimp only
      refine ⟨?_, ?_, fun h => absurd h h1, fun h => absurd h h2⟩
      · split_ifs <;> linarith
      · split_ifs <;> linarith

/-- C8 witness: the bounds evaluated at a freshly constructed tracker and at
an initialized tracker. -/
theorem claim_C8_flowRatio_bounds_witness :
    (FilamentMotionSensor.mk0 4 0).initialized = false ∧
    (FilamentMotionSensor.mk0 4 0).getFlowRatio = 0 := by
  refine ⟨rfl, (claim_C8_flowRatio_bounds (FilamentMotionSensor.mk0 4 0)).2.2.1 rfl⟩

/-- C9: for every tracker state, `getDeficit()` equals
`max(0, getExpectedDistance() - getSensorDistance())`, and equals 0 when the
tracker is uninitialized. -/
theorem claim_C9_deficit (s : FilamentMotionSensor) :
    s.getDeficit = max 0 (s.getExpectedDistance - s.getSensorDistance) ∧
    (s.initialized = false → s.getDeficit = 0) := by
  unfold FilamentMotionSensor.getDeficit
  by_cases h : s.initialized = false
  · rw [if_pos h]
    unfold FilamentMotionSensor.getExpectedDistance FilamentMotionSensor.getSensorDistance
    rw [if_pos h, if_pos h]
    norm_num
  · rw [if_neg h]
    dsimp only
    constructor
    · rcases le_or_lt (s.getExpectedDistance - s.getSensorDistance) 0 with hd | hd
      · rw [if_neg (by linarith), max_eq_left hd]
      · rw [if_pos hd, max_eq_right (le_of_lt hd)]
    · intro hfalse
      exact absurd hfalse h

/-- C9 witness: the identity evaluated at an uninitialized tracker. -/
theorem claim_C9_deficit_witness :
    (FilamentMotionSensor.mk0 4 0).initialized = false ∧
    (FilamentMotionSensor.mk0 4 0).getDeficit = 0 := by
  refine ⟨rfl, (claim_C9_deficit (FilamentMotionSensor.mk0 4 0)).2 rfl⟩

/-- C10: a call to `addSensorPulse` with `mmPerPulse ≤ 0`, or on an
uninitialized tracker, leaves the entire tracker state unchanged. -/
theorem claim_C10_pulse_noop (s : FilamentMotionSensor) (mm : ℚ) (now : Nat)
    (h : mm ≤ 0 ∨ s.initialized = false) :
    s.addSensorPulse mm now = s := by
  unfold FilamentMotionSensor.addSensorPulse
  rw [if_pos h]

/-- C10 witness: a non-positive pulse on a concrete tracker is a no-op. -/
theorem claim_C10_pulse_noop_witness :
    ((-1 : ℚ) ≤ 0 ∨ (FilamentMotionSensor.mk0 4 0).initialized = false) ∧
    (FilamentMotionSensor.mk0 4 0).addSensorPulse (-1) 5 = FilamentMotionSensor.mk0 4 0 := by
  refine ⟨Or.inl (by norm_num), claim_C10_pulse_noop _ _ _ (Or.inl (by norm_num))⟩

/-- A concrete reachable tracker for C1: constructed, then initialized by a
first telemetry update of 10 mm at t = 100 ms. -/
def sC1 : FilamentMotionSensor :=
  (FilamentMotionSensor.mk0 50 100).updateExpectedPosition 10 100

/-- C1 counterexample: a retraction call (5 < 10) at t = 5000 ms does clear
the sample window, but it does NOT leave `lastExpectedUpdateMs` unchanged —
the source (line 98) resets the grace-period clock to the current time. -/
theorem claim_C1_counterexample :
    sC1.initialized = true ∧ (5 : ℚ) < sC1.expectedPositionMm ∧
    sC1.lastExpectedUpdateMs = 100 ∧
    (sC1.updateExpectedPosition 5 5000).sampleCount = 0 ∧
    (sC1.updateExpectedPosition 5 5000).lastExpectedUpdateMs = 5000 := by
  refine ⟨rfl, by norm_num [sC1, FilamentMotionSensor.mk0, FilamentMotionSensor.reset,
    FilamentMotionSensor.updateExpectedPosition], rfl, ?_, ?_⟩ <;> decide

/-- C1 amended: on every initialized tracker, a retraction call
(`total < expectedPositionMm`) empties the sample window (`sampleCount = 0`,
`nextSampleIndex = 0`) and RESETS the grace-period clock
`lastExpectedUpdateMs` to the current time. -/
theorem claim_C1_amended (s : FilamentMotionSensor) (total : ℚ) (now : Nat)
    (hinit : s.initialized = true) (hret : total < s.expectedPositionMm) :
    (s.updateExpectedPosition total now).sampleCount = 0 ∧
    (s.updateExpectedPosition total now).nextSampleIndex = 0 ∧
    (s.updateExpectedPosition total now).lastExpectedUpdateMs = now := by
  have h1 : ¬ (s.initialized = false) := by simp [hinit]
  have hd : ¬ ((total - s.expectedPositionMm) > 1 / 100) := by
    intro h
    linarith
  unfold FilamentMotionSensor.updateExpectedPosition
  rw [if_neg h1]
  dsimp only
  rw [if_pos hret]
  dsimp only
  have hgap : ¬ (wsub now now > 2000 ∧ total - s.expectedPositionMm > 1 / 100) := by
    rw [wsub_self]
    rintro ⟨hc, -⟩
    omega
  rw [if_neg hgap]
  dsimp only
  have hw : ¬ (s.trackingMode = FilamentTrackingMode.windowed ∧
      total - s.expectedPositionMm > 1 / 100) := fun h => hd h.2
  have he : ¬ (s.trackingMode = FilamentTrackingMode.ewma ∧
      total - s.expectedPositionMm > 1 / 100) := fun h => hd h.2
  by_cases hfp : s.firstPulseReceived = true
  · rw [if_pos hfp, if_neg hw, if_neg he]
    exact ⟨rfl, rfl, rfl⟩
  · rw [if_neg hfp]
    exact ⟨rfl, rfl, rfl⟩

/-- C1 witness: the amended retraction effects evaluated at the concrete
tracker `sC1`. -/
theorem claim_C1_witness :
    sC1.initialized = true ∧ (4 : ℚ) < sC1.expectedPositionMm ∧
    ((sC1.updateExpectedPosition 4 7777).sampleCount = 0 ∧
     (sC1.updateExpectedPosition 4 7777).nextSampleIndex = 0 ∧
     (sC1.updateExpectedPosition 4 7777).lastExpectedUpdateMs = 7777) := by
  refine ⟨rfl, by decide, claim_C1_amended sC1 4 7777 rfl (by decide)⟩

/-- Before the first pulse, `updateExpectedPosition` leaves the windowed and
EWMA expected accumulators empty: `firstPulseReceived` stays false, the sample
window stays empty, `ewmaExpectedMm` stays 0 and the mode is unchanged. -/
lemma update_noPulse_inv (s : FilamentMotionSensor) (total : ℚ) (now : Nat)
    (h1 : s.firstPulseReceived = false) (h2 : s.sampleCount = 0)
    (h3 : s.ewmaExpectedMm = 0) :
    (s.updateExpectedPosition total now).firstPulseReceived = false ∧
    (s.updateExpectedPosition total now).sampleCount = 0 ∧
    (s.updateExpectedPosition total now).ewmaExpectedMm = 0 ∧
    (s.updateExpectedPosition total now).trackingMode = s.trackingMode := by
  unfold FilamentMotionSensor.updateExpectedPosition
  by_cases hi : s.initialized = false
  · rw [if_pos hi]
    exact ⟨h1, h2, rfl, rfl⟩
  · rw [if_neg hi]
    try dsimp only
    by_cases hr : total < s.expectedPositionMm
    · rw [if_pos hr]
      try dsimp only
      have hd : ¬ ((total - s.expectedPositionMm) > 1 / 100) := by
        intro h
        linarith
      have hgap : ¬ (wsub now now > 2000 ∧ total - s.expectedPositionMm > 1 / 100) :=
        fun h => hd h.2
      rw [if_neg hgap]
      try dsimp only
      rw [if_neg (by simp [h1] : ¬ (s.firstPulseReceived = true))]
      exact ⟨h1, rfl, rfl, rfl⟩
    · rw [if_neg hr]
      try dsimp only
      by_cases hg : wsub now s.lastExpectedUpdateMs > 2000 ∧ total - s.expectedPositionMm > 1 / 100
      · rw [if_pos hg]
        try dsimp only
        rw [if_neg (by simp [h1] : ¬ (s.firstPulseReceived = true))]
        exact ⟨h1, h2, h3, rfl⟩
      · rw [if_neg hg]
        try dsimp only
        rw [if_neg (by simp [h1] : ¬ (s.firstPulseReceived = true))]
        exact ⟨h1, h2, h3, rfl⟩

/-- The invariant of `update_noPulse_inv`, propagated along any sequence of
`updateExpectedPosition` calls. -/
lemma foldl_noPulse (calls : List (ℚ × Nat)) :
    ∀ s : FilamentMotionSensor, s.firstPulseReceived = false → s.sampleCount = 0 →
      s.ewmaExpectedMm = 0 →
      (calls.foldl (fun st p => st.updateExpectedPosition p.1 p.2) s).firstPulseReceived
          = false ∧
      (calls.foldl (fun st p => st.updateExpectedPosition p.1 p.2) s).sampleCount = 0 ∧
      (calls.foldl (fun st p => st.updateExpectedPosition p.1 p.2) s).ewmaExpectedMm = 0 ∧
      (calls.foldl (fun st p => st.updateExpectedPosition p.1 p.2) s).trackingMode
          = s.trackingMode := by
  induction calls with
  | nil => exact fun s h1 h2 h3 => ⟨h1, h2, h3, rfl⟩
  | cons p rest ih =>
    intro s h1 h2 h3
    simp only [List.foldl_cons]
    obtain ⟨a, b, c, d⟩ := update_noPulse_inv s p.1 p.2 h1 h2 h3
    obtain ⟨a2, b2, c2, d2⟩ := ih (s.updateExpectedPosition p.1 p.2) a b c
    exact ⟨a2, b2, c2, d2.trans d⟩

/-- A concrete reachable cumulative-mode tracker for C4: constructed, switched
to cumulative tracking, then fed telemetry 0 mm at t = 0 and 5 mm at
t = 100 ms, with no sensor pulse ever. -/
def sC4 : FilamentMotionSensor :=
  (((FilamentMotionSensor.mk0 50 0).setTrackingMode
    FilamentTrackingMode.cumulative 5000 (3 / 10)).updateExpectedPosition 0
      0).updateExpectedPosition 5 100

/-- C4 counterexample: in cumulative tracking mode, with no pulse ever
observed, two telemetry updates (0 mm then 5 mm) leave
`getExpectedDistance() = 5`, not 0 — the cumulative accumulator (source line
147) is updated outside the `firstPulseReceived` guard. -/
theorem claim_C4_counterexample :
    sC4.firstPulseReceived = false ∧
    sC4.trackingMode = FilamentTrackingMode.cumulative ∧
    sC4.getExpectedDistance = 5 := by
  refine ⟨rfl, rfl, ?_⟩
  have he : sC4.expectedPositionMm = 5 := by decide
  have hb : sC4.baselinePositionMm = 0 := by decide
  unfold FilamentMotionSensor.getExpectedDistance
  rw [if_neg (by decide : ¬ (sC4.initialized = false))]
  rw [show sC4.trackingMode = FilamentTrackingMode.cumulative from rfl]
  dsimp only
  rw [he, hb]
  norm_num

/-- C4 amended: starting from a reset tracker in the windowed or EWMA mode
(not cumulative), any sequence of `updateExpectedPosition` calls with no
intervening pulse leaves `getExpectedDistance() = 0`; in cumulative mode the
expected delta is not discarded until the first pulse resynchronizes the
baseline. -/
theorem claim_C4_amended (s0 : FilamentMotionSensor) (now0 : Nat)
    (calls : List (ℚ × Nat))
    (hmode : s0.trackingMode ≠ FilamentTrackingMode.cumulative) :
    (calls.foldl (fun st p => st.updateExpectedPosition p.1 p.2)
      (s0.reset now0)).getExpectedDistance = 0 := by
  obtain ⟨h1, h2, h3, h4⟩ := foldl_noPulse calls (s0.reset now0) rfl rfl rfl
  have hm :
      (calls.foldl (fun st p => st.updateExpectedPosition p.1 p.2)
        (s0.reset now0)).trackingMode = s0.trackingMode := h4
  generalize hu :
      (calls.foldl (fun st p => st.updateExpectedPosition p.1 p.2)
        (s0.reset now0)) = u at h1 h2 h3 hm ⊢
  unfold FilamentMotionSensor.getExpectedDistance
  by_cases hi : u.initialized = false
  · rw [if_pos hi]
  · rw [if_neg hi]
    cases htm : u.trackingMode with
    | cumulative => exact absurd (htm ▸ hm).symm hmode
    | windowed =>
      show u.getWindowedDistances.1 = 0
      rw [getWindowedDistances_of_empty _ h2]
    | ewma => exact h3

/-- C4 witness: the amended no-pulse property evaluated on a concrete
windowed-mode tracker over two telemetry updates. -/
theorem claim_C4_witness :
    (FilamentMotionSensor.mk0 50 0).trackingMode ≠ FilamentTrackingMode.cumulative ∧
    ([((0 : ℚ), (0 : Nat)), ((5 : ℚ), (100 : Nat))].foldl
      (fun st p => st.updateExpectedPosition p.1 p.2)
      ((FilamentMotionSensor.mk0 50 0).reset 0)).getExpectedDistance = 0 := by
  exact ⟨by decide, claim_C4_amended (FilamentMotionSensor.mk0 50 0) 0 _ (by decide)⟩

/-- A concrete tracker for C5 with `MAX_SAMPLES = 3`: reset at t = 9000 ms,
then three samples added at t = 10000, 10001, 10002 ms (window 5000 ms), so
the ring buffer is full and no sample is older than the window. -/
def sC5 : FilamentMotionSensor :=
  (((FilamentMotionSensor.mk0 3 9000).addSample 10 0 10000).addSample 10 0
    10001).addSample 10 0 10002

/-- C5: with the buffer full (`sampleCount = MAX_SAMPLES`) and no sample older
than the window, `pruneOldSamples` (source line 248) sets
`nextSampleIndex = sampleCount = MAX_SAMPLES`, NOT a value strictly below
`MAX_SAMPLES`; the write `samples[nextSampleIndex]` that `addSample` performs
immediately afterwards (source line 209) is therefore one slot past the end of
the array. -/
theorem claim_C5_prune_overflow :
    sC5.maxSamples = 3 ∧ sC5.sampleCount = 3 ∧
    (sC5.pruneOldSamples 10003).nextSampleIndex = sC5.maxSamples ∧
    ¬ ((sC5.pruneOldSamples 10003).nextSampleIndex < sC5.maxSamples) := by
  refine ⟨rfl, by decide, by decide, by decide⟩

lemma clampRatioThreshold_id (rt : ℚ) (h1 : 0 < rt) (h2 : rt ≤ 1) :
    clampRatioThreshold rt = rt := by
  unfold clampRatioThreshold
  rw [if_neg (not_le.mpr h1)]
  exact if_neg (not_lt.mpr h2)

lemma clampSoftJamTime_pos (st : Int) (h : 0 < st) : clampSoftJamTime st = st := by
  unfold clampSoftJamTime
  rw [if_neg (by omega)]

lemma clampHardJamTime_pos (ht : Int) (h : 0 < ht) : clampHardJamTime ht = ht := by
  unfold clampHardJamTime
  rw [if_neg (by omega)]

/-- Past the early returns (initialized, positive interval, grace not active),
`isJammed` is the core evaluation on the clamped parameters. -/
lemma jamEval_eq_core (s : FilamentMotionSensor) (rt hm : ℚ) (st ht c : Int)
    (g now : Nat) (hinit : s.initialized = true) (hc : 0 < c)
    (hg : ¬ graceGate s g now) :
    jamEval s rt hm st ht c g now =
      jamEvalCore s (clampRatioThreshold rt) (clampSoftJamTime st)
        (clampHardJamTime ht) c now := by
  unfold jamEval
  have h1 : ¬ (s.initialized = false ∨ c ≤ 0) := by
    rw [hinit]
    simp
    omega
  rw [if_neg h1, if_neg hg]

lemma softStep_hard_frame (s0 s : FilamentMotionSensor) (rt : ℚ) (stN delta : Nat) :
    (softStep s0 s rt stN delta).hardJamAccumulatedMs = s.hardJamAccumulatedMs := by
  unfold softStep
  split <;> rfl

lemma hardAccumStep_soft_frame (s0 s : FilamentMotionSensor) (delta htN : Nat)
    (c : Int) (now : Nat) :
    (hardAccumStep s0 s delta htN c now).softJamAccumulatedMs = s.softJamAccumulatedMs ∧
    (hardAccumStep s0 s delta htN c now).softJamDeficitAccumMm = s.softJamDeficitAccumMm := by
  unfold hardAccumStep
  split
  · exact ⟨rfl, rfl⟩
  · split
    · exact ⟨rfl, rfl⟩
    · exact ⟨rfl, rfl⟩

lemma hardVeto_soft_frame (s0 s : FilamentMotionSensor) (htN : Nat) :
    (hardVeto s0 s htN).2.softJamAccumulatedMs = s.softJamAccumulatedMs ∧
    (hardVeto s0 s htN).2.softJamDeficitAccumMm = s.softJamDeficitAccumMm := by
  unfold hardVeto
  split
  · split
    · exact ⟨rfl, rfl⟩
    · exact ⟨rfl, rfl⟩
  · exact ⟨rfl, rfl⟩

/-- What the trigger-and-veto step computes: the flag is `accum ≥ hardJamTimeMs
AND expected ≥ 1 mm`, and the accumulator is zeroed exactly when it reached
the threshold with expected < 1 mm. -/
lemma hardVeto_spec (s0 s : FilamentMotionSensor) (htN : Nat) :
    (hardVeto s0 s htN).1 =
      decide (htN ≤ s.hardJamAccumulatedMs ∧ 1 ≤ s0.getExpectedDistance) ∧
    (hardVeto s0 s htN).2.hardJamAccumulatedMs =
      (if htN ≤ s.hardJamAccumulatedMs ∧ s0.getExpectedDistance < 1 then 0
       else s.hardJamAccumulatedMs) := by
  unfold hardVeto
  by_cases h1 : s.hardJamAccumulatedMs ≥ htN
  · rw [if_pos h1]
    by_cases h2 : s0.getExpectedDistance ≥ 1
    · rw [if_pos h2]
      refine ⟨by simp [h1, h2], ?_⟩
      rw [if_neg (fun hx => absurd hx.2 (not_lt.mpr h2))]
    · rw [if_neg h2]
      refine ⟨by simp [h2], ?_⟩
      rw [if_pos ⟨h1, lt_of_not_le h2⟩]
  · rw [if_neg h1]
    refine ⟨by simp [h1], ?_⟩
    rw [if_neg (fun hx => absurd hx.1 h1)]

/-- What the soft accumulation step computes. -/
lemma softStep_spec (s0 s : FilamentMotionSensor) (rt : ℚ) (stN delta : Nat) :
    ((softStep s0 s rt stN delta).softJamAccumulatedMs =
      if softCondition s0 rt then
        (if s.softJamAccumulatedMs + delta > stN then stN
         else s.softJamAccumulatedMs + delta)
      else 0) ∧
    ((softStep s0 s rt stN delta).softJamDeficitAccumMm =
      if softCondition s0 rt then s.softJamDeficitAccumMm + windowDeficit s0
      else 0) := by
  unfold softStep
  by_cases h : softCondition s0 rt
  · rw [if_pos h, if_pos h, if_pos h]
    exact ⟨rfl, rfl⟩
  · rw [if_neg h, if_neg h, if_neg h]
    exact ⟨rfl, rfl⟩

/-- The soft-jam fields of the state after one core evaluation. -/
lemma jamEvalCore_soft_fields (s : FilamentMotionSensor) (rt : ℚ) (st ht c : Int)
    (now : Nat) :
    (jamEvalCore s rt st ht c now).state.softJamAccumulatedMs =
      (if softCondition s rt then
        (if s.softJamAccumulatedMs + evalDelta s c now > st.toNat then st.toNat
         else s.softJamAccumulatedMs + evalDelta s c now)
       else 0) ∧
    (jamEvalCore s rt st ht c now).state.softJamDeficitAccumMm =
      (if softCondition s rt then s.softJamDeficitAccumMm + windowDeficit s
       else 0) := by
  unfold jamEvalCore
  dsimp only
  rw [(softStep_spec _ _ _ _ _).1, (softStep_spec _ _ _ _ _).2]
  rw [(hardVeto_soft_frame _ _ _).1, (hardVeto_soft_frame _ _ _).2]
  dsimp only
  rw [(hardAccumStep_soft_frame _ _ _ _ _ _).1, (hardAccumStep_soft_frame _ _ _ _ _ _).2]
  exact ⟨rfl, rfl⟩

/-- The returned soft-jam flag of one core evaluation tests exactly the
post-call accumulator values. -/
lemma jamEvalCore_softTriggered (s : FilamentMotionSensor) (rt : ℚ) (st ht c : Int)
    (now : Nat) :
    ((jamEvalCore s rt st ht c now).softJamTriggered = true ↔
      (st.toNat ≤ (jamEvalCore s rt st ht c now).state.softJamAccumulatedMs ∧
       (1 / 2 : ℚ) ≤ (jamEvalCore s rt st ht c now).state.softJamDeficitAccumMm)) := by
  unfold jamEvalCore
  dsimp only
  exact decide_eq_true_iff

/-- The hard-jam accumulator and flag after one core evaluation in which the
hard condition is false. -/
lemma jamEvalCore_hard_fields (s : FilamentMotionSensor) (rt : ℚ) (st ht c : Int)
    (now : Nat) (hhard : ¬ hardCondition s) :
    (jamEvalCore s rt st ht c now).state.hardJamAccumulatedMs =
      (if 0 < s.hardJamAccumulatedMs ∧ receivedPulseRecent s c now then 0
       else if ht.toNat ≤ s.hardJamAccumulatedMs ∧ s.getExpectedDistance < 1 then 0
       else s.hardJamAccumulatedMs) ∧
    (jamEvalCore s rt st ht c now).hardJamTriggered =
      decide (ht.toNat ≤
          (if 0 < s.hardJamAccumulatedMs ∧ receivedPulseRecent s c now then 0
           else s.hardJamAccumulatedMs) ∧
        1 ≤ s.getExpectedDistance) := by
  unfold jamEvalCore preEvalState hardAccumStep
  dsimp only
  rw [if_neg hhard]
  rw [softStep_hard_frame]
  rw [(hardVeto_spec _ _ _).1, (hardVeto_spec _ _ _).2]
  dsimp only
  by_cases hfr : 0 < s.hardJamAccumulatedMs ∧ receivedPulseRecent s c now
  · rw [if_pos hfr, if_pos hfr, if_pos hfr]
    dsimp only
    exact ⟨ite_self 0, rfl⟩
  · rw [if_neg hfr, if_neg hfr, if_neg hfr]
    exact ⟨rfl, rfl⟩

/-- A concrete tracker for C2, as left behind by a hard-jam episode followed
by a retraction: the accumulator sits at the 5000 ms cap, the retraction has
emptied the sample window (windowed expected distance 0 mm), and the last
pulse is long gone (t = 10 ms). -/
def sC2 : FilamentMotionSensor :=
  { FilamentMotionSensor.mk0 8 0 with
    initialized := true
    firstPulseReceived := true
    lastExpectedUpdateMs := 6000
    expectedPositionMm := 5
    baselinePositionMm := 5
    hardJamAccumulatedMs := 5000
    lastJamEvaluationMs := 6600
    lastSensorPulseMs := 10 }

/-- C2 counterexample: calling `isJammed` (ratio 0.25, soft 10000 ms, hard
5000 ms, interval 1000 ms, no grace) at t = 7600 ms on `sC2`: the hard
condition is false, the accumulator is nonzero, NO pulse was seen within
`checkIntervalMs + 500` ms — yet `hardJamAccumulatedMs` is not left unchanged:
the stale-carry veto (source lines 389-393) resets it to zero. -/
theorem claim_C2_counterexample :
    ¬ hardCondition sC2 ∧
    sC2.hardJamAccumulatedMs ≠ 0 ∧
    ¬ receivedPulseRecent sC2 1000 7600 ∧
    sC2.hardJamAccumulatedMs = 5000 ∧
    (jamEval sC2 1 5 10000 5000 1000 0 7600).state.hardJamAccumulatedMs = 0 := by
  refine ⟨by decide, by decide, by decide, rfl, by decide⟩

/-- C2 amended: in a full evaluation (initialized, positive interval, grace
expired) with the hard condition false, `hardJamAccumulatedMs` is zeroed when
it is nonzero and a pulse arrived within `checkIntervalMs + 500` ms, OR when
it has reached `hardJamTimeMs` while the windowed expected distance is below
1 mm (the stale-carry veto); otherwise it is unchanged.  `hardJamTriggered`
holds exactly when the accumulator after the forgiveness step has reached
`hardJamTimeMs` and the windowed expected distance is still ≥ 1 mm. -/
theorem claim_C2_amended (s : FilamentMotionSensor) (rt hm : ℚ) (st ht c : Int)
    (g now : Nat) (hinit : s.initialized = true) (hc : 0 < c) (hht : 0 < ht)
    (hg : ¬ graceGate s g now) (hhard : ¬ hardCondition s) :
    (jamEval s rt hm st ht c g now).state.hardJamAccumulatedMs =
      (if 0 < s.hardJamAccumulatedMs ∧ receivedPulseRecent s c now then 0
       else if ht.toNat ≤ s.hardJamAccumulatedMs ∧ s.getExpectedDistance < 1 then 0
       else s.hardJamAccumulatedMs) ∧
    ((jamEval s rt hm st ht c g now).hardJamTriggered = true ↔
      (ht.toNat ≤
          (if 0 < s.hardJamAccumulatedMs ∧ receivedPulseRecent s c now then 0
           else s.hardJamAccumulatedMs) ∧
        1 ≤ s.getExpectedDistance)) := by
  rw [jamEval_eq_core s rt hm st ht c g now hinit hc hg, clampHardJamTime_pos ht hht]
  refine ⟨(jamEvalCore_hard_fields s _ _ ht c now hhard).1, ?_⟩
  rw [(jamEvalCore_hard_fields s _ _ ht c now hhard).2]
  exact decide_eq_true_iff

/-- C2 witness: the amended hard-jam bookkeeping evaluated at the concrete
call of the counterexample state. -/
theorem claim_C2_witness :
    (jamEval sC2 1 5 10000 5000 1000 0 7600).state.hardJamAccumulatedMs =
      (if 0 < sC2.hardJamAccumulatedMs ∧ receivedPulseRecent sC2 1000 7600 then 0
       else if (5000 : Int).toNat ≤ sC2.hardJamAccumulatedMs ∧
           sC2.getExpectedDistance < 1 then 0
       else sC2.hardJamAccumulatedMs) ∧
    ((jamEval sC2 1 5 10000 5000 1000 0 7600).hardJamTriggered = true ↔
      ((5000 : Int).toNat ≤
          (if 0 < sC2.hardJamAccumulatedMs ∧ receivedPulseRecent sC2 1000 7600 then 0
           else sC2.hardJamAccumulatedMs) ∧
        1 ≤ sC2.getExpectedDistance)) :=
  claim_C2_amended sC2 1 5 10000 5000 1000 0 7600 rfl (by decide) (by decide)
    (by decide) (by decide)

/-- C3: in a full evaluation (initialized, positive interval, grace expired,
parameters in range), when the soft condition (ratio below threshold AND
windowed deficit ≥ 0.25 mm) is false, both `softJamAccumulatedMs` and
`softJamDeficitAccumMm` are reset to zero in that same call, and
`softJamTriggered` holds exactly when the post-call accumulators satisfy
`softJamAccumulatedMs ≥ softJamTimeMs` and `softJamDeficitAccumMm ≥ 0.5 mm`. -/
theorem claim_C3_softJam (s : FilamentMotionSensor) (rt hm : ℚ) (st ht c : Int)
    (g now : Nat) (hinit : s.initialized = true) (hc : 0 < c) (hst : 0 < st)
    (hrt1 : 0 < rt) (hrt2 : rt ≤ 1) (hg : ¬ graceGate s g now) :
    (¬ softCondition s rt →
      (jamEval s rt hm st ht c g now).state.softJamAccumulatedMs = 0 ∧
      (jamEval s rt hm st ht c g now).state.softJamDeficitAccumMm = 0) ∧
    ((jamEval s rt hm st ht c g now).softJamTriggered = true ↔
      (st.toNat ≤ (jamEval s rt hm st ht c g now).state.softJamAccumulatedMs ∧
       (1 / 2 : ℚ) ≤ (jamEval s rt hm st ht c g now).state.softJamDeficitAccumMm)) := by
  rw [jamEval_eq_core s rt hm st ht c g now hinit hc hg,
    clampRatioThreshold_id rt hrt1 hrt2, clampSoftJamTime_pos st hst]
  constructor
  · intro hns
    rw [(jamEvalCore_soft_fields s rt st _ c now).1,
      (jamEvalCore_soft_fields s rt st _ c now).2, if_neg hns, if_neg hns]
    exact ⟨rfl, rfl⟩
  · exact jamEvalCore_softTriggered s rt st _ c now

/-- A concrete initialized tracker (constructed, then one telemetry update at
t = 0), used to witness the jam-classifier claims. -/
def sInit : FilamentMotionSensor :=
  (FilamentMotionSensor.mk0 4 0).updateExpectedPosition 0 0

/-- C3 witness: the soft-jam bookkeeping evaluated at a concrete healthy call
(empty window, ratio 1): the accumulators reset and the trigger is false. -/
theorem claim_C3_witness :
    ¬ softCondition sInit 1 ∧
    (jamEval sInit 1 5 7000 3000 1000 0 50).state.softJamAccumulatedMs = 0 ∧
    (jamEval sInit 1 5 7000 3000 1000 0 50).state.softJamDeficitAccumMm = 0 := by
  have h := claim_C3_softJam sInit 1 5 7000 3000 1000 0 50 rfl (by decide)
    (by decide) (by norm_num) (by norm_num) (by decide)
  have hns : ¬ softCondition sInit 1 := by decide
  exact ⟨hns, (h.1 hns).1, (h.1 hns).2⟩

lemma jamEvalCore_delta (s : FilamentMotionSensor) (rt : ℚ) (st ht c : Int)
    (now : Nat) :
    (jamEvalCore s rt st ht c now).evaluationDeltaMs = evalDelta s c now := rfl

/-- The trigger-and-veto step never increases the hard-jam accumulator. -/
lemma hardVeto_le (s0 s : FilamentMotionSensor) (htN : Nat) :
    (hardVeto s0 s htN).2.hardJamAccumulatedMs ≤ s.hardJamAccumulatedMs := by
  rw [(hardVeto_spec s0 s htN).2]
  split
  · omega
  · omega

/-- The hard accumulation step adds at most `delta`. -/
lemma hardAccumStep_le (s0 s : FilamentMotionSensor) (delta htN : Nat) (c : Int)
    (now : Nat) :
    (hardAccumStep s0 s delta htN c now).hardJamAccumulatedMs ≤
      s.hardJamAccumulatedMs + delta := by
  unfold hardAccumStep
  split
  · dsimp only
    split <;> omega
  · split
    · dsimp only
      omega
    · omega

/-- One core evaluation never adds more than the evaluation credit to the
hard-jam accumulator. -/
lemma jamEvalCore_hard_le (s : FilamentMotionSensor) (rt : ℚ) (st ht c : Int)
    (now : Nat) :
    (jamEvalCore s rt st ht c now).state.hardJamAccumulatedMs ≤
      s.hardJamAccumulatedMs + evalDelta s c now := by
  unfold jamEvalCore
  dsimp only
  rw [softStep_hard_frame]
  refine le_trans (hardVeto_le _ _ _) ?_
  refine le_trans
    (hardAccumStep_le s (preEvalState s ht c now) (evalDelta s c now) ht.toNat c now) ?_
  exact le_of_eq rfl

/-- One core evaluation never adds more than the evaluation credit to the
soft-jam accumulator. -/
lemma jamEvalCore_soft_le (s : FilamentMotionSensor) (rt : ℚ) (st ht c : Int)
    (now : Nat) :
    (jamEvalCore s rt st ht c now).state.softJamAccumulatedMs ≤
      s.softJamAccumulatedMs + evalDelta s c now := by
  rw [(jamEvalCore_soft_fields s rt st ht c now).1]
  split
  · split <;> omega
  · omega

/-- C6: under a monotone clock, a single `isJammed` call adds at most
`checkIntervalMs` to either jam accumulator, and in a full evaluation the
wall-clock credit equals `min(checkIntervalMs, now − lastJamEvaluationMs)`,
with `checkIntervalMs` itself used on the first evaluation after reset
(`lastJamEvaluationMs = 0`). -/
theorem claim_C6_evaluation_credit (s : FilamentMotionSensor) (rt hm : ℚ)
    (st ht c : Int) (g now : Nat)
    (h1 : s.lastJamEvaluationMs ≤ now) (h2 : now < 2 ^ 32) :
    (jamEval s rt hm st ht c g now).state.hardJamAccumulatedMs ≤
      s.hardJamAccumulatedMs + c.toNat ∧
    (jamEval s rt hm st ht c g now).state.softJamAccumulatedMs ≤
      s.softJamAccumulatedMs + c.toNat ∧
    (s.initialized = true → 0 < c → ¬ graceGate s g now →
      (jamEval s rt hm st ht c g now).evaluationDeltaMs =
        (if s.lastJamEvaluationMs = 0 then c.toNat
         else min c.toNat (now - s.lastJamEvaluationMs))) := by
  have hdle : evalDelta s c now ≤ c.toNat := evalDelta_le s c now
  unfold jamEval
  by_cases he : s.initialized = false ∨ c ≤ 0
  · rw [if_pos he]
    refine ⟨Nat.le_add_right _ _, Nat.le_add_right _ _, fun hi hc _ => ?_⟩
    rcases he with h | h
    · rw [hi] at h
      cases h
    · omega
  · rw [if_neg he]
    by_cases hgr : graceGate s g now
    · rw [if_pos hgr]
      refine ⟨Nat.zero_le _, Nat.zero_le _, fun _ _ hgn => absurd hgr hgn⟩
    · rw [if_neg hgr]
      refine ⟨le_trans (jamEvalCore_hard_le s _ _ _ c now) (by omega),
        le_trans (jamEvalCore_soft_le s _ _ _ c now) (by omega), fun _ _ _ => ?_⟩
      rw [jamEvalCore_delta]
      unfold evalDelta
      dsimp only
      rw [wsub_eq_sub h1 h2]
      by_cases hz : s.lastJamEvaluationMs = 0
      · rw [if_pos hz, if_pos hz]
        split <;> omega
      · rw [if_neg hz, if_neg hz, Nat.min_def]
        split
        · split <;> omega
        · split <;> omega

/-- C6 witness: the credit equation and accumulator bounds evaluated for a
concrete call at t = 100 ms on a freshly initialized tracker. -/
theorem claim_C6_witness :
    sInit.lastJamEvaluationMs ≤ 100 ∧
    (jamEval sInit 1 5 7000 3000 1000 0 100).state.hardJamAccumulatedMs ≤
      sInit.hardJamAccumulatedMs + (1000 : Int).toNat ∧
    (jamEval sInit 1 5 7000 3000 1000 0 100).state.softJamAccumulatedMs ≤
      sInit.softJamAccumulatedMs + (1000 : Int).toNat := by
  have h := claim_C6_evaluation_credit sInit 1 5 7000 3000 1000 0 100 (by decide)
    (by decide)
  exact ⟨by decide, h.1, h.2.1⟩

/-- C7: out-of-range configuration never rejects the call: `isJammed` behaves
exactly as if the value were the documented default (`ratioThreshold ≤ 0` as
0.25, `ratioThreshold > 1` as 1.0, `softJamTimeMs ≤ 0` as 10000,
`hardJamTimeMs ≤ 0` as 5000), and — once initialized, with a positive
interval and the grace period over — the call proceeds to the normal core
evaluation of the clamped parameters. -/
theorem claim_C7_clamped_defaults (s : FilamentMotionSensor) (rt hm : ℚ)
    (st ht c : Int) (g now : Nat) :
    (rt ≤ 0 → jamEval s rt hm st ht c g now = jamEval s (1 / 4) hm st ht c g now) ∧
    (1 < rt → jamEval s rt hm st ht c g now = jamEval s 1 hm st ht c g now) ∧
    (st ≤ 0 → jamEval s rt hm st ht c g now = jamEval s rt hm 10000 ht c g now) ∧
    (ht ≤ 0 → jamEval s rt hm st ht c g now = jamEval s rt hm st 5000 c g now) ∧
    (s.initialized = true → 0 < c → ¬ graceGate s g now →
      jamEval s rt hm st ht c g now =
        jamEvalCore s (clampRatioThreshold rt) (clampSoftJamTime st)
          (clampHardJamTime ht) c now) := by
  refine ⟨?_, ?_, ?_, ?_, fun hi hc hg => jamEval_eq_core s rt hm st ht c g now hi hc hg⟩
  · intro h
    have hcl : clampRatioThreshold rt = clampRatioThreshold (1 / 4) := by
      unfold clampRatioThreshold
      rw [if_pos h, if_neg (by norm_num : ¬ (1 / 4 : ℚ) ≤ 0)]
    unfold jamEval
    rw [hcl]
  · intro h
    have hcl : clampRatioThreshold rt = clampRatioThreshold 1 := by
      unfold clampRatioThreshold
      rw [if_neg (by linarith : ¬ rt ≤ 0), if_pos h,
        if_neg (by norm_num : ¬ (1 : ℚ) ≤ 0), if_neg (by norm_num : ¬ (1 : ℚ) > 1)]
    unfold jamEval
    rw [hcl]
  · intro h
    have hcl : clampSoftJamTime st = clampSoftJamTime 10000 := by
      unfold clampSoftJamTime
      rw [if_pos h, if_neg (by omega : ¬ (10000 : Int) ≤ 0)]
    unfold jamEval
    rw [hcl]
  · intro h
    have hcl : clampHardJamTime ht = clampHardJamTime 5000 := by
      unfold clampHardJamTime
      rw [if_pos h, if_neg (by omega : ¬ (5000 : Int) ≤ 0)]
    unfold jamEval
    rw [hcl]

/-- C7 witness: a call with `ratioThreshold = -1` and `softJamTimeMs = 0`
equals the call with the documented defaults 0.25 and 10000. -/
theorem claim_C7_witness :
    jamEval sInit (-1) 5 0 3000 1000 0 50 =
      jamEval sInit (1 / 4) 5 0 3000 1000 0 50 ∧
    jamEval sInit (-1) 5 0 3000 1000 0 50 =
      jamEval sInit (-1) 5 10000 3000 1000 0 50 := by
  refine ⟨(claim_C7_clamped_defaults sInit (-1) 5 0 3000 1000 0 50).1 (by norm_num),
    (claim_C7_clamped_defaults sInit (-1) 5 0 3000 1000 0 50).2.2.1 (by omega)⟩
